import Mathlib

/-!
Shallow embedding of `fastmcp_otel_middleware` (middleware.py) together with the
OpenTelemetry test-double modules that the repository ships under
`tests/_otel_stub/` (context stack, trace-context propagator, tracer).  Python
dynamic values are modelled by the inductive `PyVal`; Python `None` is the
constructor `PyVal.none`, attribute-bearing records (objects with an instance
`__dict__`) are `PyVal.obj`, and plain mappings (which in Python have *no*
instance `__dict__`) are `PyVal.dict`.  Machine integers do not occur: Python
ints are arbitrary precision, modelled by `Nat`/`Int`.
-/

/-- ASCII lower-casing of one character.  Python `str.lower()` also folds
non-ASCII letters; every key the middleware handles is ASCII. -/
def asciiLowerChar (c : Char) : Char :=
  if 'A' ≤ c ∧ c ≤ 'Z' then Char.ofNat (c.toNat + 32) else c

/-- Python `key.lower()` on the ASCII keys under study. -/
def pyLower (s : String) : String := String.mk (s.data.map asciiLowerChar)

/-- Split a character list on a separator, Python `str.split(sep)` semantics
for a one-character separator: the empty string yields `[""]`, adjacent
separators yield empty segments. -/
def splitListOn (sep : Char) : List Char → List (List Char)
  | [] => [[]]
  | c :: rest =>
      let r := splitListOn sep rest
      if c = sep then [] :: r
      else
        match r with
        | [] => [[c]]
        | g :: gs => (c :: g) :: gs

/-- Python `traceparent.split("-")`. -/
def pySplitDash (s : String) : List String :=
  (splitListOn '-' s.data).map String.mk

/-- Python runtime values, as far as the middleware inspects them. -/
inductive PyVal where
  | none
  | bool (b : Bool)
  | int (n : Int)
  | str (s : String)
  | list (items : List PyVal)
  | dict (entries : List (String × PyVal))
  | obj (fields : List (String × PyVal))

/-- Python truthiness (`bool(x)`) for the shapes above. -/
def pyTruthy : PyVal → Bool
  | .none => false
  | .bool b => b
  | .int n => n != 0
  | .str s => !s.data.isEmpty
  | .list xs => !xs.isEmpty
  | .dict es => !es.isEmpty
  | .obj _ => true

/-- Is the value Python `None`? (`item is not None` checks in the source). -/
def isPyNone : PyVal → Bool
  | .none => true
  | _ => false

/-- Python `str(value)`.  Faithful for the scalar shapes the middleware
stringifies in the claims under study; container rendering (Python uses a
repr-based form) is abstracted to a tag, since no claim inspects the
stringification of a container value. -/
def pyStr : PyVal → String
  | .none => "None"
  | .bool b => if b then "True" else "False"
  | .int n => toString n
  | .str s => s
  | .list _ => "<sequence>"
  | .dict _ => "<mapping>"
  | .obj _ => "<object>"

/-- First-match association lookup, the behaviour of `key in mapping` /
`mapping[key]` on a Python dict whose insertion order is the list order. -/
def assocLookup {β : Type} : List (String × β) → String → Option β
  | [], _ => Option.none
  | (k, v) :: rest, key => if k = key then some v else assocLookup rest key

/-- Python dict assignment `d[k] = v`: overwrite in place if the key exists,
otherwise append (insertion order). -/
def assocInsert {β : Type} : List (String × β) → String → β → List (String × β)
  | [], k, v => [(k, v)]
  | (k', v') :: rest, k, v =>
      if k' = k then (k, v) :: rest else (k', v') :: assocInsert rest k v

namespace MetaCarrierGetter

def OTEL_NAMESPACE_KEYS : List String := ["otel", "opentelemetry"]

/-- The alias table as written in the source: it contains only the
`traceparent` entry (middleware.py lines 87-89). -/
def OTEL_FIELD_ALIASES : List (String × List String) :=
  [("traceparent", ["traceparent", "traceParent", "TRACEPARENT"])]

/-- Scan an alias list in declared order and return the value bound to the
first alias present in the mapping (the inner loop of `_normalize_mapping`). -/
def firstAliasIn (m : List (String × PyVal)) : List String → Option PyVal
  | [] => Option.none
  | a :: rest =>
      match assocLookup m a with
      | some v => some v
      | Option.none => firstAliasIn m rest

/-- First phase of `_normalize_mapping`: for each canonical key in the alias
table, bind it to the first alias found. -/
def aliasPhase (m : List (String × PyVal)) : List (String × PyVal) :=
  OTEL_FIELD_ALIASES.foldl
    (fun acc ck =>
      match firstAliasIn m ck.2 with
      | some v => assocInsert acc ck.1 v
      | Option.none => acc)
    []

/-- Second phase of `_normalize_mapping`: copy every original key lower-cased,
skipping keys already bound (written as structural recursion over the mapping,
equivalent to the source's `for key, value in mapping.items()` loop). -/
def passThrough : List (String × PyVal) → List (String × PyVal) → List (String × PyVal)
  | [], acc => acc
  | (k, v) :: rest, acc =>
      let lk := pyLower k
      passThrough rest (if (assocLookup acc lk).isSome then acc else assocInsert acc lk v)

/-- `MetaCarrierGetter._normalize_mapping`. -/
def normalize_mapping (m : List (String × PyVal)) : List (String × PyVal) :=
  passThrough m (aliasPhase m)

/-- `hasattr(x, "__dict__")`: true exactly for attribute-bearing records.
Plain dicts, strings, numbers and `None` have no instance `__dict__`. -/
def hasDunderDict : PyVal → Bool
  | .obj _ => true
  | _ => false

/-- `vars(x)` for a record; only called behind a `hasDunderDict` check. -/
def varsOf : PyVal → List (String × PyVal)
  | .obj fields => fields
  | _ => []

/-- `MetaCarrierGetter._candidate_sources`: no views at all unless the carrier
has a `__dict__`; then the normalized root view followed by the normalized
`otel` / `opentelemetry` nested views (when present, truthy and themselves
`__dict__`-bearing). -/
def candidate_sources (carrier : PyVal) : List (List (String × PyVal)) :=
  if hasDunderDict carrier then
    let carrierDict := varsOf carrier
    normalize_mapping carrierDict ::
      OTEL_NAMESPACE_KEYS.filterMap (fun nk =>
        match assocLookup carrierDict nk with
        | some nested =>
            if pyTruthy nested && hasDunderDict nested then
              some (normalize_mapping (varsOf nested))
            else Option.none
        | Option.none => Option.none)
  else []

/-- `MetaCarrierGetter._coerce_to_strings`. -/
def coerce_to_strings : PyVal → List String
  | .none => []
  | .list items => (items.filter (fun x => !(isPyNone x))).map pyStr
  | v => [pyStr v]

/-- `MetaCarrierGetter.get`: empty for a falsy carrier, otherwise accumulate
the coercions of the value bound to `key.lower()` in every candidate view. -/
def get (carrier : PyVal) (key : String) : List String :=
  if !(pyTruthy carrier) then []
  else
    let normalizedKey := pyLower key
    (candidate_sources carrier).foldl
      (fun values src =>
        match assocLookup src normalizedKey with
        | some v => values ++ coerce_to_strings v
        | Option.none => values)
      []

end MetaCarrierGetter

/-- W3C span context as in the stub (`tests/_otel_stub/opentelemetry/trace`). -/
structure SpanContext where
  trace_id : Nat
  span_id : Nat
  is_remote : Bool
  trace_flags : Nat
deriving DecidableEq

/-- `SpanContext.is_valid`: `bool(self.trace_id and self.span_id)`. -/
def SpanContext.is_valid (sc : SpanContext) : Bool :=
  sc.trace_id != 0 && sc.span_id != 0

/-- A span reference stored inside a propagation `Context`.  The stub stores
either a `NonRecordingSpan` (produced by extraction) or a live `Span`
(produced by `start_as_current_span`); in both cases the only operation the
stub ever performs on a context-held span is `get_span_context()`, so the
reference carries exactly that. -/
inductive SpanRef where
  | nonRecording (sc : SpanContext)
  | active (sc : SpanContext)
deriving DecidableEq

def SpanRef.getSpanContext : SpanRef → SpanContext
  | .nonRecording sc => sc
  | .active sc => sc

/-- The stub `Context` dataclass: `span: Any | None = None`. -/
structure Context where
  span : Option SpanRef := Option.none
deriving DecidableEq

def Context.empty : Context := {}

/-- Parse one hex digit. -/
def hexDigit? (c : Char) : Option Nat :=
  if '0' ≤ c ∧ c ≤ '9' then some (c.toNat - '0'.toNat)
  else if 'a' ≤ c ∧ c ≤ 'f' then some (c.toNat - 'a'.toNat + 10)
  else if 'A' ≤ c ∧ c ≤ 'F' then some (c.toNat - 'A'.toNat + 10)
  else Option.none

/-- CPython whitespace predicate (`Py_UNICODE_ISSPACE`), the set `int(...)`
strips from both ends: 0x09-0x0D, 0x1C-0x1F, space, NEL, NBSP, and the
Unicode space separators. -/
def isPySpace (c : Char) : Bool :=
  decide ((0x09 ≤ c.toNat ∧ c.toNat ≤ 0x0D) ∨ (0x1C ≤ c.toNat ∧ c.toNat ≤ 0x1F) ∨
    c.toNat = 0x20 ∨ c.toNat = 0x85 ∨ c.toNat = 0xA0 ∨ c.toNat = 0x1680 ∨
    (0x2000 ≤ c.toNat ∧ c.toNat ≤ 0x200A) ∨ c.toNat = 0x2028 ∨ c.toNat = 0x2029 ∨
    c.toNat = 0x202F ∨ c.toNat = 0x205F ∨ c.toNat = 0x3000)

/-- Strip leading and trailing Python whitespace. -/
def stripPySpace (cs : List Char) : List Char :=
  ((cs.dropWhile isPySpace).reverse.dropWhile isPySpace).reverse

/-- Digit scanner of CPython `int(s, 16)` after sign and base prefix: hex
digits with single underscores permitted between digits (`seenDigit` records
whether a digit has been read, `prevUnderscore` that the previous character
was an underscore — a run must neither start nor end with one, except for the
single underscore a base prefix may be followed by, which the caller consumes
by entering with `prevUnderscore = true`). -/
def hexCore : List Char → Bool → Bool → Nat → Option Nat
  | [], seenDigit, prevUnderscore, acc =>
      if seenDigit && !prevUnderscore then some acc else Option.none
  | c :: rest, seenDigit, prevUnderscore, acc =>
      match hexDigit? c with
      | some d => hexCore rest true false (acc * 16 + d)
      | Option.none =>
          if c = '_' then
            if prevUnderscore || !seenDigit then Option.none
            else hexCore rest seenDigit true acc
          else Option.none

/-- Python `int(s, 16)` on the strings the propagator feeds it, returning
`none` where Python raises: strip surrounding whitespace, accept an optional
plus sign, an optional `0x`/`0X` prefix (optionally followed by one
underscore), then hex digits with single underscores between them.  Two
deliberate restrictions, stated here and reflected in the C2 theorem scope:
a minus sign (which Python would accept, yielding a negative value) cannot
occur, because every character `-` of the header is consumed by
`traceparent.split("-")` and so no dash-split segment contains one; and
CPython transliteration of non-ASCII decimal digits and spaces to ASCII
before parsing is not modelled, so the C2 theorem quantifies over ASCII
headers only (the spec declares the wire format ASCII). -/
def hexParse? (s : String) : Option Nat :=
  let cs := stripPySpace s.data
  let cs :=
    match cs with
    | '+' :: rest => rest
    | other => other
  match cs with
  | '0' :: x :: rest =>
      if x = 'x' ∨ x = 'X' then
        match rest with
        | '_' :: rest2 => hexCore rest2 false true 0
        | _ => hexCore rest false false 0
      else hexCore cs false false 0
  | _ => hexCore cs false false 0

namespace TraceContextTextMapPropagator

def TRACEPARENT_HEADER : String := "traceparent"

/-- The stub propagator's `extract` (tracecontext.py lines 17-37), with the
getter fixed to the default `MetaCarrierGetter` (the only getter the claims
exercise).  The Python `version, trace_id_hex, span_id_hex, *_rest =
traceparent.split("-")` unpacking succeeds whenever the split has at least
three segments; any raised error is caught and yields a fresh empty
`Context()`. -/
def extract (carrier : Option PyVal) : Context :=
  match carrier with
  | Option.none => Context.empty
  | some c =>
      match MetaCarrierGetter.get c TRACEPARENT_HEADER with
      | [] => Context.empty
      | traceparent :: _ =>
          match pySplitDash traceparent with
          | _version :: traceIdHex :: spanIdHex :: _rest =>
              match hexParse? traceIdHex, hexParse? spanIdHex with
              | some traceId, some spanId =>
                  { span := some (SpanRef.nonRecording
                      { trace_id := traceId, span_id := spanId,
                        is_remote := true, trace_flags := 1 }) }
              | _, _ => Context.empty
          | _ => Context.empty

end TraceContextTextMapPropagator

/-- Stub `context.get_current()`: the top of the stack (`_current_stack[-1]`);
the Python stack is never empty, the default covers the unreachable case. -/
def get_current (stack : List Context) : Context := stack.getLastD Context.empty

/-- `get_context_from_meta` (middleware.py lines 151-163) with the default
global propagator (the stub `TraceContextTextMapPropagator`).  The ambient
stack is passed explicitly since `context.get_current()` reads it. -/
def get_context_from_meta (meta : Option PyVal) (stack : List Context) : Context :=
  match meta with
  | Option.none => get_current stack
  | some m => TraceContextTextMapPropagator.extract (some m)

/-- Stub `StatusCode`. -/
inductive StatusCode where
  | unset
  | ok
  | error
deriving DecidableEq

/-- Stub `Status` dataclass. -/
structure Status where
  code : StatusCode
  description : String := ""
deriving DecidableEq

/-- Stub `SpanKind`. -/
inductive SpanKind where
  | internal
  | server
deriving DecidableEq

/-- A Python exception object: `id` models object identity (so re-raising the
same object is expressible), `msg` models `str(exc)`. -/
structure Exc where
  id : Nat
  msg : String
deriving DecidableEq

/-- Attribute values set by the middleware (strings and booleans). -/
inductive AttrVal where
  | str (s : String)
  | bool (b : Bool)
deriving DecidableEq

/-- Span events; the stub records `("exception", exc)` pairs. -/
inductive SpanEvent where
  | exception (e : Exc)
deriving DecidableEq

/-- The stub `Span`. -/
structure Span where
  name : String
  ctx : SpanContext
  parent : Option SpanContext
  kind : SpanKind
  attributes : List (String × AttrVal) := []
  status : Status := { code := StatusCode.unset }
  events : List SpanEvent := []
deriving DecidableEq

/-- Mutable state of the stub OpenTelemetry runtime threaded through the
middleware: the ambient-context stack (`context._current_stack`, bottom
first, exactly as the Python list), the provider's id counter
(`itertools.count(1)`), and the spans handed to the export pipeline.
`attaches` / `detaches` are ghost counters incremented by each call to
`context.attach` / `context.detach`; they are not part of the source and are
used only to state attach/detach pairing invariants. -/
structure OtelState where
  stack : List Context
  counter : Nat
  finished : List Span
  attaches : Nat
  detaches : Nat
deriving DecidableEq

/-- Stub process start state: `_current_stack = [Context()]`, counter at 1. -/
def initialOtelState : OtelState :=
  { stack := [Context.empty], counter := 1, finished := [], attaches := 0, detaches := 0 }

/-- Stub `context.attach`: append and return `len(stack) - 1`, the index of the
newly pushed context (equal to the length before the append). -/
def attach (c : Context) (st : OtelState) : Nat × OtelState :=
  (st.stack.length,
   { st with stack := st.stack ++ [c], attaches := st.attaches + 1 })

/-- Stub `context.detach`: `del _current_stack[token:]` when the token is in
range, refilling with a fresh `Context()` if the stack would become empty;
out-of-range tokens are silently ignored. -/
def detach (token : Nat) (st : OtelState) : OtelState :=
  let st := { st with detaches := st.detaches + 1 }
  if token < st.stack.length then
    let s := st.stack.take token
    { st with stack := if s.isEmpty then [Context.empty] else s }
  else st

/-- Stub `TracerProvider._next_span_context`. -/
def next_span_context (parent : Option SpanContext) (st : OtelState) :
    SpanContext × OtelState :=
  let spanId := st.counter
  let st := { st with counter := st.counter + 1 }
  match parent with
  | Option.none =>
      ({ trace_id := spanId <<< 64 ||| spanId, span_id := spanId,
         is_remote := false, trace_flags := 1 }, st)
  | some p =>
      ({ trace_id := p.trace_id, span_id := spanId,
         is_remote := false, trace_flags := 1 }, st)

/-- Stub `Tracer.start_as_current_span`: resolve the parent span context from
the explicitly supplied context (falling back to the current span), mint the
child span context, build the span, and attach a context holding it.  Returns
the span, the detach token of the span activation, and the new state. -/
def start_as_current_span (name : String) (c : Context) (kind : SpanKind)
    (st : OtelState) : Span × Nat × OtelState :=
  let parentSC : Option SpanContext :=
    match c.span with
    | some r => some r.getSpanContext
    | Option.none =>
        match (get_current st.stack).span with
        | some r => some r.getSpanContext
        | Option.none => Option.none
  let (sc, st) := next_span_context parentSC st
  let span : Span := { name := name, ctx := sc, parent := parentSC, kind := kind }
  let (token, st) := attach { span := some (SpanRef.active sc) } st
  (span, token, st)

/-- `ToolCallMessage` protocol: a name and optional arguments mapping. -/
structure ToolCallMessage where
  name : String
  arguments : Option PyVal := Option.none

/-- `RequestContext` protocol: the optional `_meta` object. -/
structure RequestContext where
  meta : Option PyVal := Option.none

/-- `FastMCPContext` protocol. -/
structure FastMCPContext where
  request_context : Option RequestContext := Option.none

/-- `MiddlewareContext` protocol. -/
structure MiddlewareContext where
  message : ToolCallMessage
  method : Option String
  source : String
  fastmcp_context : Option FastMCPContext := Option.none

/-- Model of the awaited `call_next` continuation: when invoked it leaves
`residue` extra contexts attached on the ambient stack (the net effect of any
attaches the downstream handler performed and did not pop) and then either
returns a value or raises an exception.  Handlers that pop stack frames they
did not push are outside the modelled class. -/
structure Handler (α : Type) where
  outcome : Except Exc α
  residue : List Context := []

/-- `FastMCPTracingMiddleware` construction options (dataclass defaults).  The
tracer, propagator and getter overrides are fixed to their defaults — the stub
global tracer and propagator and the default `MetaCarrierGetter` — which is
what every claim under study exercises. -/
structure FastMCPTracingMiddleware where
  spanNamePrefix : String := ""
  spanKind : SpanKind := SpanKind.server
  recordSuccessfulResult : Bool := true
  recordToolExceptions : Bool := true
  includeArguments : Bool := false
  langfuseCompatible : Bool := false
deriving DecidableEq

namespace FastMCPTracingMiddleware

/-- `FastMCPTracingMiddleware._set_attribute` (middleware.py lines 486-510):
always set the standard attribute; when `langfuse_compatible` and a truthy
mirror name are given, also set the constant observation type and the
prefixed mirror. -/
def setAttribute (mw : FastMCPTracingMiddleware) (span : Span) (name : String)
    (value : AttrVal) (langfuseName : Option String) : Span :=
  let span := { span with attributes := assocInsert span.attributes name value }
  match langfuseName with
  | some ln =>
      if mw.langfuseCompatible && !ln.data.isEmpty then
        let span := { span with attributes :=
          (assocInsert span.attributes "langfuse.observation.type" (AttrVal.str "tool")) }
        { span with attributes :=
          (assocInsert span.attributes ("langfuse.observation.metadata." ++ ln) value) }
      else span
  | Option.none => span

/-- Metadata resolution at the start of `on_call_tool`:
`ctx.fastmcp_context.request_context.meta` with `None` at every absent step. -/
def resolveMeta (ctx : MiddlewareContext) : Option PyVal :=
  match ctx.fastmcp_context with
  | some fc =>
      match fc.request_context with
      | some rc => rc.meta
      | Option.none => Option.none
  | Option.none => Option.none

/-- The attribute-population block at the top of the `with` statement in
`on_call_tool` (middleware.py lines 450-462): tool name, method (when truthy),
source, and optionally the stringified arguments. -/
def initialAttributes (mw : FastMCPTracingMiddleware) (ctx : MiddlewareContext)
    (span : Span) : Span :=
  let span := mw.setAttribute span "fastmcp.tool.name"
    (AttrVal.str ctx.message.name) (some "tool_name")
  let span :=
    match ctx.method with
    | some m =>
        if !m.data.isEmpty then
          mw.setAttribute span "mcp.method" (AttrVal.str m) (some "mcp_method")
        else span
    | Option.none => span
  let span := mw.setAttribute span "mcp.source"
    (AttrVal.str ctx.source) (some "mcp_source")
  match ctx.message.arguments with
  | some args =>
      if mw.includeArguments && pyTruthy args then
        mw.setAttribute span "fastmcp.tool.arguments"
          (AttrVal.str (pyStr args)) (some "tool_arguments")
      else span
  | Option.none => span

/-- `FastMCPTracingMiddleware.on_call_tool` (middleware.py lines 381-484) over
the stub runtime.  The debug-logging branches are environment-gated writes to
stderr and are omitted (they do not touch the traced state).  The `with`
statement's exit runs the span scope's `__exit__` — detach of the span token
then export of the span — on both the return path and the exception path, and
the `finally` detaches the initially attached context unconditionally. -/
def on_call_tool {α : Type} (mw : FastMCPTracingMiddleware)
    (ctx : MiddlewareContext) (callNext : Handler α) (st : OtelState) :
    Except Exc α × OtelState :=
  let toolName := ctx.message.name
  let meta := resolveMeta ctx
  let parentContext := get_context_from_meta meta st.stack
  let (token, st) := attach parentContext st
  let spanName := mw.spanNamePrefix ++ toolName
  let (span, spanToken, st) := start_as_current_span spanName parentContext mw.spanKind st
  let span := mw.initialAttributes ctx span
  let st := { st with stack := st.stack ++ callNext.residue }
  match callNext.outcome with
  | Except.ok v =>
      let span :=
        if mw.recordSuccessfulResult then
          mw.setAttribute span "fastmcp.tool.success" (AttrVal.bool true) (some "tool_success")
        else span
      let st := detach spanToken st
      let st := { st with finished := st.finished ++ [span] }
      let st := detach token st
      (Except.ok v, st)
  | Except.error exc =>
      let span :=
        if mw.recordToolExceptions then
          let span := { span with events := span.events ++ [SpanEvent.exception exc] }
          let span := { span with status := { code := StatusCode.error, description := exc.msg } }
          mw.setAttribute span "fastmcp.tool.success" (AttrVal.bool false) (some "tool_success")
        else span
      let st := detach spanToken st
      let st := { st with finished := st.finished ++ [span] }
      let st := detach token st
      (Except.error exc, st)

/-- `FastMCPTracingMiddleware.__call__` (middleware.py lines 350-379): dispatch
to `on_call_tool` only for the `"tools/call"` method, otherwise forward
straight to `call_next`. -/
def call {α : Type} (mw : FastMCPTracingMiddleware) (ctx : MiddlewareContext)
    (callNext : Handler α) (st : OtelState) : Except Exc α × OtelState :=
  if ctx.method = some "tools/call" then mw.on_call_tool ctx callNext st
  else (callNext.outcome, { st with stack := st.stack ++ callNext.residue })

end FastMCPTracingMiddleware

/-- Shape of the `add_middleware` attribute that `instrument_fastmcp` probes
with `getattr(app, "add_middleware", None)` and `callable(...)`. -/
inductive AddMiddlewareAttr where
  | missing
  | nonCallable
  | callableHook
deriving DecidableEq

/-- A host application instance, reduced to the one attribute the registrar
probes plus the list of middlewares a callable hook has registered. -/
structure App where
  add_middleware : AddMiddlewareAttr
  registered : List FastMCPTracingMiddleware := []
deriving DecidableEq

/-- The `TypeError` message raised by `instrument_fastmcp` (the Python message
additionally interpolates the app's type and quotes the attribute name). -/
def instrumentErrorMessage : String :=
  "The provided app does not have an add_middleware method. " ++
  "This middleware requires FastMCP 2.13.1 or later."

/-- `instrument_fastmcp` (middleware.py lines 513-578): construct the
middleware when one is not supplied, register it through a callable
`add_middleware` hook and return it, or raise `TypeError` (modelled as
`Except.error`) leaving the app untouched. -/
def instrument_fastmcp (app : App)
    (middleware : Option FastMCPTracingMiddleware := Option.none) :
    Except String FastMCPTracingMiddleware × App :=
  let tracingMiddleware := middleware.getD {}
  match app.add_middleware with
  | AddMiddlewareAttr.callableHook =>
      (Except.ok tracingMiddleware,
       { app with registered := app.registered ++ [tracingMiddleware] })
  | _ => (Except.error instrumentErrorMessage, app)

/-- Stack left behind by `detach`: Python refills an emptied stack with a
fresh `Context()`. -/
def finalStack (s : List Context) : List Context :=
  if s.isEmpty then [Context.empty] else s

namespace FastMCPTracingMiddleware

/-- Parent span context resolved by `start_as_current_span` inside
`on_call_tool`: the explicitly supplied context is exactly the freshly
attached extracted context, so the parent is its span's context (if any). -/
def parentOf (ctx : MiddlewareContext) (st : OtelState) : Option SpanContext :=
  (get_context_from_meta (resolveMeta ctx) st.stack).span.map SpanRef.getSpanContext

/-- Span context minted by the provider for the invocation's span. -/
def mintedContext (ctx : MiddlewareContext) (st : OtelState) : SpanContext :=
  match parentOf ctx st with
  | Option.none =>
      { trace_id := st.counter <<< 64 ||| st.counter, span_id := st.counter,
        is_remote := false, trace_flags := 1 }
  | some q =>
      { trace_id := q.trace_id, span_id := st.counter,
        is_remote := false, trace_flags := 1 }

/-- The invocation's span just before `call_next` runs. -/
def baseSpan (mw : FastMCPTracingMiddleware) (ctx : MiddlewareContext) (st : OtelState) : Span :=
  mw.initialAttributes ctx
    { name := mw.spanNamePrefix ++ ctx.message.name, ctx := mintedContext ctx st,
      parent := parentOf ctx st, kind := mw.spanKind }

/-- The exported span when `call_next` returns normally. -/
def okSpan (mw : FastMCPTracingMiddleware) (ctx : MiddlewareContext) (st : OtelState) : Span :=
  if mw.recordSuccessfulResult then
    mw.setAttribute (baseSpan mw ctx st) "fastmcp.tool.success" (AttrVal.bool true) (some "tool_success")
  else baseSpan mw ctx st

/-- The exported span when `call_next` raises `e`. -/
def errSpan (mw : FastMCPTracingMiddleware) (ctx : MiddlewareContext) (st : OtelState) (e : Exc) : Span :=
  if mw.recordToolExceptions then
    mw.setAttribute
      { baseSpan mw ctx st with
          events := (baseSpan mw ctx st).events ++ [SpanEvent.exception e],
          status := { code := StatusCode.error, description := e.msg } }
      "fastmcp.tool.success" (AttrVal.bool false) (some "tool_success")
  else baseSpan mw ctx st

end FastMCPTracingMiddleware

/-- Does the attribute key carry the vendor prefix `"langfuse."`? -/
def langfusePrefixed (k : String) : Bool := "langfuse.".data.isPrefixOf k.data

/-- The W3C header of the spec's concrete scenario. -/
def c1Header : String := "00-4bf92f3577b34da6a3ce929d0e0e4736-00f067aa0ba902b7-01"

/-- Mapping-shaped carrier (admissible shape (a)): a plain dict binding
`traceparent` to the valid header. -/
def c1MappingMeta : PyVal := PyVal.dict [("traceparent", PyVal.str c1Header)]

/-- Middleware context of the concrete scenario, with the mapping-shaped
carrier as `ctx.fastmcp_context.request_context.meta`. -/
def c1Ctx : MiddlewareContext :=
  { message := { name := "get_temperature" },
    method := some "tools/call",
    source := "client",
    fastmcp_context := some ⟨some ⟨some c1MappingMeta⟩⟩ }

/-- A traceparent with five dash-separated segments: wrong segment count under
the W3C grammar, yet its first three fields parse. -/
def c2ExtraSegmentHeader : String :=
  "00-4bf92f3577b34da6a3ce929d0e0e4736-00f067aa0ba902b7-01-ff"

/-- Record-shaped carrier holding the five-segment header. -/
def c2Carrier : PyVal := PyVal.obj [("traceparent", PyVal.str c2ExtraSegmentHeader)]

/-- An ambient stack whose current context holds a span. -/
def c3Stack : List Context :=
  [{ span := some (SpanRef.active
      { trace_id := 5, span_id := 6, is_remote := false, trace_flags := 1 }) }]

/-- A record-shaped carrier with no traceparent field anywhere. -/
def c3Meta : PyVal := PyVal.obj [("foo", PyVal.str "bar")]

/-- A single view holding two case variants of `tracestate`, upper-case
variant first in carrier order. -/
def c4View : List (String × PyVal) :=
  [("TRACESTATE", PyVal.str "a"), ("traceState", PyVal.str "b")]

theorem assocLookup_assocInsert {β : Type} (m : List (String × β)) (k k' : String) (v : β) :
    assocLookup (assocInsert m k v) k' = if k = k' then some v else assocLookup m k' := by
  induction m with
  | nil => simp [assocInsert, assocLookup]
  | cons hd tl ih =>
      rcases hd with ⟨k0, v0⟩
      by_cases h0 : k0 = k
      · subst h0
        by_cases h : k0 = k' <;> simp [assocInsert, assocLookup, h]
      · by_cases h1 : k0 = k' <;> by_cases h2 : k = k'
        · exact absurd (h1.trans h2.symm) h0
        · subst h1
          simp [assocInsert, assocLookup, h0, h2]
        · subst h2
          simp [assocInsert, assocLookup, h0, h1, ih]
        · simp [assocInsert, assocLookup, h0, h1, h2, ih]

theorem take_length_append (s t : List Context) : (s ++ t).take s.length = s := by
  induction s with
  | nil => rfl
  | cons hd tl ih => simp [List.take, ih]

theorem isEmpty_append_singleton (s : List Context) (c : Context) :
    (s ++ [c]).isEmpty = false := by
  cases s <;> rfl

theorem get_current_append (s : List Context) (c : Context) :
    get_current (s ++ [c]) = c := List.getLastD_concat _ _ _

theorem detach_concat (s t : List Context) (ht : t ≠ []) (cnt : Nat) (fin : List Span)
    (na nd : Nat) :
    detach s.length ⟨s ++ t, cnt, fin, na, nd⟩ = ⟨finalStack s, cnt, fin, na, nd + 1⟩ := by
  have hlen : s.length < (s ++ t).length := by
    simp [List.length_append]
    exact List.length_pos.mpr ht
  simp [detach, hlen, take_length_append, finalStack, ht]

theorem detach_concat_ne (s t : List Context) (ht : t ≠ []) (hs : s ≠ []) (cnt : Nat)
    (fin : List Span) (na nd : Nat) :
    detach s.length ⟨s ++ t, cnt, fin, na, nd⟩ = ⟨s, cnt, fin, na, nd + 1⟩ := by
  rw [detach_concat s t ht]
  simp [finalStack, hs]

namespace FastMCPTracingMiddleware

theorem on_call_tool_spec {α : Type} (mw : FastMCPTracingMiddleware) (ctx : MiddlewareContext)
    (out : Except Exc α) (r : List Context) (st : OtelState) :
    mw.on_call_tool ctx ⟨out, r⟩ st =
      (out,
       ⟨finalStack st.stack, st.counter + 1,
        st.finished ++
          [match out with
           | Except.ok _ => okSpan mw ctx st
           | Except.error e => errSpan mw ctx st e],
        st.attaches + 1 + 1, st.detaches + 1 + 1⟩) := by
  rcases st with ⟨s, cnt, fin, na, nd⟩
  have h1 : ∀ (c2 : Context) (fin' : List Span),
      detach (s ++ [get_context_from_meta (resolveMeta ctx) s]).length
        ⟨((s ++ [get_context_from_meta (resolveMeta ctx) s]) ++ [c2]) ++ r, cnt + 1, fin', na + 1 + 1, nd⟩ =
        ⟨s ++ [get_context_from_meta (resolveMeta ctx) s], cnt + 1, fin', na + 1 + 1, nd + 1⟩ := by
    intro c2 fin'
    rw [List.append_assoc (s ++ [get_context_from_meta (resolveMeta ctx) s])]
    exact detach_concat_ne _ _ (by simp) (by simp) _ _ _ _
  have h2 : ∀ (fin' : List Span),
      detach s.length
        ⟨s ++ [get_context_from_meta (resolveMeta ctx) s], cnt + 1, fin', na + 1 + 1, nd + 1⟩ =
        ⟨finalStack s, cnt + 1, fin', na + 1 + 1, nd + 1 + 1⟩ := by
    intro fin'
    exact detach_concat _ _ (by simp) _ _ _ _
  cases hp : (get_context_from_meta (resolveMeta ctx) s).span with
  | none =>
      cases out with
      | ok v =>
          simp only [on_call_tool, attach, start_as_current_span, next_span_context,
            get_current_append, hp, okSpan, baseSpan, mintedContext, parentOf, Option.map]
          rw [h1, h2]
      | error e =>
          simp only [on_call_tool, attach, start_as_current_span, next_span_context,
            get_current_append, hp, errSpan, baseSpan, mintedContext, parentOf, Option.map]
          rw [h1, h2]
  | some ref =>
      cases out with
      | ok v =>
          simp only [on_call_tool, attach, start_as_current_span, next_span_context,
            get_current_append, hp, okSpan, baseSpan, mintedContext, parentOf, Option.map]
          rw [h1, h2]
      | error e =>
          simp only [on_call_tool, attach, start_as_current_span, next_span_context,
            get_current_append, hp, errSpan, baseSpan, mintedContext, parentOf, Option.map]
          rw [h1, h2]

end FastMCPTracingMiddleware

theorem all_assocInsert (p : String × AttrVal → Bool) (m : List (String × AttrVal))
    (k : String) (v : AttrVal) (hm : m.all p = true) (hk : p (k, v) = true) :
    (assocInsert m k v).all p = true := by
  induction m with
  | nil => simp [assocInsert, hk]
  | cons hd tl ih =>
      rcases hd with ⟨k0, v0⟩
      simp only [List.all_cons, Bool.and_eq_true] at hm
      by_cases h : k0 = k <;> simp [assocInsert, h, hm, hk, ih hm.2]

theorem assocLookup_passThrough (m acc : List (String × PyVal)) (key : String) :
    assocLookup (MetaCarrierGetter.passThrough m acc) key =
      (match assocLookup acc key with
       | some v => some v
       | Option.none => assocLookup (m.map fun kv => (pyLower kv.1, kv.2)) key) := by
  induction m generalizing acc with
  | nil => cases h : assocLookup acc key <;> simp [MetaCarrierGetter.passThrough, h, assocLookup]
  | cons hd tl ih =>
      rcases hd with ⟨k0, v0⟩
      simp only [MetaCarrierGetter.passThrough]
      rw [ih]
      by_cases hpk : pyLower k0 = key
      · subst hpk
        cases hacc : assocLookup acc (pyLower k0) with
        | none => simp [hacc, assocLookup_assocInsert, assocLookup]
        | some w => simp [hacc, assocLookup]
      · cases hacc : assocLookup acc (pyLower k0) with
        | none => simp [hacc, assocLookup_assocInsert, hpk, assocLookup]
        | some w => simp [hacc, assocLookup, hpk]

theorem aliasPhase_lookup_traceparent (m : List (String × PyVal)) :
    assocLookup (MetaCarrierGetter.aliasPhase m) "traceparent" =
      MetaCarrierGetter.firstAliasIn m ["traceparent", "traceParent", "TRACEPARENT"] := by
  simp only [MetaCarrierGetter.aliasPhase, MetaCarrierGetter.OTEL_FIELD_ALIASES]
  cases h : MetaCarrierGetter.firstAliasIn m ["traceparent", "traceParent", "TRACEPARENT"] <;>
    simp [h, assocLookup, assocInsert, List.foldl]

theorem aliasPhase_lookup_tracestate (m : List (String × PyVal)) :
    assocLookup (MetaCarrierGetter.aliasPhase m) "tracestate" = Option.none := by
  simp only [MetaCarrierGetter.aliasPhase, MetaCarrierGetter.OTEL_FIELD_ALIASES]
  cases h : MetaCarrierGetter.firstAliasIn m ["traceparent", "traceParent", "TRACEPARENT"] <;>
    simp [h, assocLookup, assocInsert, List.foldl]

theorem normalize_lookup_traceparent (m : List (String × PyVal)) (v : PyVal)
    (h : MetaCarrierGetter.firstAliasIn m ["traceparent", "traceParent", "TRACEPARENT"] = some v) :
    assocLookup (MetaCarrierGetter.normalize_mapping m) "traceparent" = some v := by
  rw [MetaCarrierGetter.normalize_mapping, assocLookup_passThrough,
    aliasPhase_lookup_traceparent, h]

theorem normalize_lookup_tracestate (m : List (String × PyVal)) :
    assocLookup (MetaCarrierGetter.normalize_mapping m) "tracestate" =
      assocLookup (m.map fun kv => (pyLower kv.1, kv.2)) "tracestate" := by
  rw [MetaCarrierGetter.normalize_mapping, assocLookup_passThrough,
    aliasPhase_lookup_tracestate]

theorem metadata_key_ne_type (ln : String) :
    ("langfuse.observation.metadata." ++ ln) ≠ "langfuse.observation.type" := by
  intro h
  have hd := congrArg String.data h
  rw [String.data_append] at hd
  have hlen := congrArg List.length hd
  rw [List.length_append] at hlen
  have h30 : ("langfuse.observation.metadata.".data).length = 30 := by decide
  have h25 : ("langfuse.observation.type".data).length = 25 := by decide
  omega

namespace FastMCPTracingMiddleware

theorem setAttribute_name (mw : FastMCPTracingMiddleware) (sp : Span) (n : String)
    (v : AttrVal) (ln : Option String) : (mw.setAttribute sp n v ln).name = sp.name := by
  rcases ln with _ | ln <;> simp only [setAttribute] <;> split <;> rfl

theorem setAttribute_parent (mw : FastMCPTracingMiddleware) (sp : Span) (n : String)
    (v : AttrVal) (ln : Option String) : (mw.setAttribute sp n v ln).parent = sp.parent := by
  rcases ln with _ | ln <;> simp only [setAttribute] <;> split <;> rfl

theorem setAttribute_status (mw : FastMCPTracingMiddleware) (sp : Span) (n : String)
    (v : AttrVal) (ln : Option String) : (mw.setAttribute sp n v ln).status = sp.status := by
  rcases ln with _ | ln <;> simp only [setAttribute] <;> split <;> rfl

theorem setAttribute_events (mw : FastMCPTracingMiddleware) (sp : Span) (n : String)
    (v : AttrVal) (ln : Option String) : (mw.setAttribute sp n v ln).events = sp.events := by
  rcases ln with _ | ln <;> simp only [setAttribute] <;> split <;> rfl

theorem setAttribute_flag_false (mw : FastMCPTracingMiddleware)
    (hl : mw.langfuseCompatible = false) (sp : Span) (n : String) (v : AttrVal)
    (ln : Option String) :
    (mw.setAttribute sp n v ln).attributes = assocInsert sp.attributes n v := by
  rcases ln with _ | ln <;> simp [setAttribute, hl]

theorem initialAttributes_events (mw : FastMCPTracingMiddleware) (ctx : MiddlewareContext)
    (sp : Span) : (mw.initialAttributes ctx sp).events = sp.events := by
  unfold initialAttributes
  cases ctx.method <;> cases ctx.message.arguments <;>
    simp only [] <;> (repeat' split) <;> simp [setAttribute_events]

theorem initialAttributes_status (mw : FastMCPTracingMiddleware) (ctx : MiddlewareContext)
    (sp : Span) : (mw.initialAttributes ctx sp).status = sp.status := by
  unfold initialAttributes
  cases ctx.method <;> cases ctx.message.arguments <;>
    simp only [] <;> (repeat' split) <;> simp [setAttribute_status]

theorem baseSpan_events (mw : FastMCPTracingMiddleware) (ctx : MiddlewareContext)
    (st : OtelState) : (baseSpan mw ctx st).events = [] := by
  simp [baseSpan, initialAttributes_events]

theorem setAttribute_keys_all (mw : FastMCPTracingMiddleware)
    (hl : mw.langfuseCompatible = false) (sp : Span) (n : String) (v : AttrVal)
    (ln : Option String) (p : String → Bool)
    (hsp : (sp.attributes.all fun kv => p kv.1) = true) (hn : p n = true) :
    ((mw.setAttribute sp n v ln).attributes.all fun kv => p kv.1) = true := by
  rw [setAttribute_flag_false mw hl]
  exact all_assocInsert _ _ _ _ hsp hn

theorem initialAttributes_keys_all (mw : FastMCPTracingMiddleware) (ctx : MiddlewareContext)
    (sp : Span) (hl : mw.langfuseCompatible = false) (p : String → Bool)
    (hsp : (sp.attributes.all fun kv => p kv.1) = true)
    (h1 : p "fastmcp.tool.name" = true) (h2 : p "mcp.method" = true)
    (h3 : p "mcp.source" = true) (h4 : p "fastmcp.tool.arguments" = true) :
    ((mw.initialAttributes ctx sp).attributes.all fun kv => p kv.1) = true := by
  unfold initialAttributes
  cases ctx.method <;> cases ctx.message.arguments <;>
    simp only [] <;> (repeat' split) <;>
    (repeat' first
      | exact hsp
      | exact h1
      | exact h2
      | exact h3
      | exact h4
      | apply setAttribute_keys_all mw hl)

theorem baseSpan_keys_all (mw : FastMCPTracingMiddleware) (ctx : MiddlewareContext)
    (st : OtelState) (hl : mw.langfuseCompatible = false) (p : String → Bool)
    (h1 : p "fastmcp.tool.name" = true) (h2 : p "mcp.method" = true)
    (h3 : p "mcp.source" = true) (h4 : p "fastmcp.tool.arguments" = true) :
    ((baseSpan mw ctx st).attributes.all fun kv => p kv.1) = true := by
  unfold baseSpan
  exact initialAttributes_keys_all mw ctx _ hl p rfl h1 h2 h3 h4

end FastMCPTracingMiddleware

/-- Claim C1: the claim states that a mapping-shaped carrier (admissible shape
(a)) binding `traceparent` to a valid header makes `MetaCarrierGetter.get`
return that header and yields a span with the encoded remote parent.  The code
evaluates otherwise: a plain mapping has no instance `__dict__`, so
`_candidate_sources` yields no views, `get` returns the empty list, and the
concrete scenario of the spec produces a parentless span.  This theorem
evaluates the code at the claim itself: the spec header, tool
`"get_temperature"`, mapping-shaped metadata. -/
theorem c1_mapping_carrier_unsupported :
    MetaCarrierGetter.get c1MappingMeta "traceparent" = [] ∧
    ((({} : FastMCPTracingMiddleware).on_call_tool c1Ctx ⟨Except.ok (0 : Nat), []⟩
        initialOtelState).2.finished.map fun sp => (sp.name, sp.parent)) =
      [("get_temperature", Option.none)] := ⟨rfl, rfl⟩

/-- Claim C2 counterexample: the five-segment header in `c2Carrier` has a
wrong segment count under the W3C grammar, yet the default (stub) propagator
parses its first three fields and produces a remote parent reference whose
span context `is_valid`, refuting the claim that every malformed header
degrades to a context with no valid parent reference. -/
theorem c2_counterexample :
    TraceContextTextMapPropagator.extract (some c2Carrier) =
      { span := some (SpanRef.nonRecording
          { trace_id := 0x4bf92f3577b34da6a3ce929d0e0e4736, span_id := 0x00f067aa0ba902b7,
            is_remote := true, trace_flags := 1 }) } ∧
    (match (TraceContextTextMapPropagator.extract (some c2Carrier)).span with
     | some ref => ref.getSpanContext.is_valid
     | Option.none => false) = true := ⟨rfl, rfl⟩

/-- Claim C2 (amended): for ASCII headers (the spec declares the wire format
ASCII), extraction never raises, and a traceparent whose dash-split has fewer
than three segments or whose trace-id or span-id field fails Python hex
parsing — which tolerates surrounding whitespace, an optional plus sign, an
optional `0x`/`0X` prefix and single underscores between digits — degrades to
the empty context (no parent).  The code does not reject extra trailing
segments, and a zero trace-id or span-id still yields a remote (invalid)
parent reference rather than none. -/
theorem c2_amended (header : String)
    (hascii : ∀ c ∈ header.data, c.toNat < 128)
    (hbad : (pySplitDash header).length < 3 ∨
      ∀ ver tid sid rest, pySplitDash header = ver :: tid :: sid :: rest →
        hexParse? tid = Option.none ∨ hexParse? sid = Option.none) :
    TraceContextTextMapPropagator.extract (some (PyVal.obj [("traceparent", PyVal.str header)]))
      = Context.empty := by
  have hget : MetaCarrierGetter.get (PyVal.obj [("traceparent", PyVal.str header)])
      TraceContextTextMapPropagator.TRACEPARENT_HEADER = [header] := rfl
  simp only [TraceContextTextMapPropagator.extract, hget]
  rcases hsplit : pySplitDash header with _ | ⟨ver, _ | ⟨tid, _ | ⟨sid, rest⟩⟩⟩
  · simp
  · simp
  · simp
  · rcases hbad with hlen | hparse
    · rw [hsplit] at hlen
      simp at hlen
      omega
    · rcases hparse ver tid sid rest hsplit with h | h <;> simp [h]

/-- Claim C2 witness: the amended theorem applied at a header with a single
segment and at a header with a non-hex trace-id field. -/
theorem c2_amended_witness :
    TraceContextTextMapPropagator.extract
        (some (PyVal.obj [("traceparent", PyVal.str "banana")])) = Context.empty ∧
    TraceContextTextMapPropagator.extract
        (some (PyVal.obj [("traceparent", PyVal.str "00-zz-00f067aa0ba902b7-01")]))
      = Context.empty := by
  constructor
  · exact c2_amended "banana" (by decide) (Or.inl (by decide))
  · refine c2_amended "00-zz-00f067aa0ba902b7-01" (by decide) (Or.inr ?_)
    intro ver tid sid rest h
    have hsplit : pySplitDash "00-zz-00f067aa0ba902b7-01"
        = ["00", "zz", "00f067aa0ba902b7", "01"] := rfl
    rw [hsplit] at h
    have htid : tid = "zz" := by
      simp [List.cons.injEq] at h
      exact h.2.1.symm
    left
    rw [htid]
    rfl

/-- Claim C3 counterexample: with an ambient stack whose current context holds
a span, extraction from a non-null carrier lacking `traceparent` returns the
fresh empty context `Context()`, which differs from the ambient context — the
claim that the exact current context is returned fails. -/
theorem c3_counterexample :
    get_context_from_meta (some c3Meta) c3Stack ≠ get_current c3Stack ∧
    get_context_from_meta (some c3Meta) c3Stack = Context.empty := by
  refine ⟨?_, rfl⟩
  decide

/-- Claim C3 (amended): when meta is null, `get_context_from_meta` returns the
ambient context unchanged; when meta is present but no `traceparent` value is
found in any candidate view, it returns a fresh empty root context, which
coincides with the ambient context only when the ambient context is itself
empty. -/
theorem c3_amended (meta : Option PyVal) (stack : List Context) :
    (meta = Option.none → get_context_from_meta meta stack = get_current stack) ∧
    (∀ m : PyVal, meta = some m →
      MetaCarrierGetter.get m "traceparent" = [] →
      get_context_from_meta meta stack = Context.empty) := by
  constructor
  · rintro rfl
    rfl
  · rintro m rfl hget
    simp [get_context_from_meta, TraceContextTextMapPropagator.extract,
      TraceContextTextMapPropagator.TRACEPARENT_HEADER, hget]

/-- Claim C3 witness: the amended theorem applied at null meta and at a
record-shaped carrier with no traceparent field. -/
theorem c3_amended_witness :
    get_context_from_meta Option.none c3Stack = get_current c3Stack ∧
    get_context_from_meta (some c3Meta) c3Stack = Context.empty :=
  ⟨(c3_amended Option.none c3Stack).1 rfl,
   (c3_amended (some c3Meta) c3Stack).2 c3Meta rfl rfl⟩

/-- Claim C4 counterexample: the alias table contains no `tracestate` entry,
so in a view holding `TRACESTATE` (first) and `traceState` (second) the
canonical `tracestate` key is bound to the value of `TRACESTATE` — the first
key in carrier order — not to `traceState`, the first-declared alias of the
claim.  The two values differ, refuting the claimed priority. -/
theorem c4_counterexample :
    assocLookup (MetaCarrierGetter.normalize_mapping c4View) "tracestate"
      = some (PyVal.str "a") ∧ PyVal.str "a" ≠ PyVal.str "b" := ⟨rfl, by simp⟩

/-- Claim C4 (amended): the fixed alias table contains only `traceparent`
(aliases `traceparent`, `traceParent`, `TRACEPARENT`); for it the canonical
key is bound to the first-declared alias present in the view, regardless of
carrier order.  `tracestate` (and likewise `baggage`) has no alias entry:
its case variants collapse through generic lower-casing, the first-occurring
key in the view winning. -/
theorem c4_amended (m : List (String × PyVal)) (v : PyVal) :
    (MetaCarrierGetter.firstAliasIn m ["traceparent", "traceParent", "TRACEPARENT"] = some v →
      assocLookup (MetaCarrierGetter.normalize_mapping m) "traceparent" = some v) ∧
    assocLookup (MetaCarrierGetter.normalize_mapping m) "tracestate" =
      assocLookup (m.map fun kv => (pyLower kv.1, kv.2)) "tracestate" :=
  ⟨normalize_lookup_traceparent m v, normalize_lookup_tracestate m⟩

/-- Claim C4 witness: the amended theorem applied to a view holding the
`traceParent` alias and both `tracestate` case variants. -/
theorem c4_amended_witness :
    assocLookup (MetaCarrierGetter.normalize_mapping
      [("traceParent", PyVal.str "x"), ("TRACESTATE", PyVal.str "a"), ("traceState", PyVal.str "b")])
      "traceparent" = some (PyVal.str "x") ∧
    assocLookup (MetaCarrierGetter.normalize_mapping
      [("traceParent", PyVal.str "x"), ("TRACESTATE", PyVal.str "a"), ("traceState", PyVal.str "b")])
      "tracestate" =
      assocLookup ([("traceParent", PyVal.str "x"), ("TRACESTATE", PyVal.str "a"),
        ("traceState", PyVal.str "b")].map fun kv => (pyLower kv.1, kv.2)) "tracestate" :=
  ⟨(c4_amended _ (PyVal.str "x")).1 rfl, (c4_amended _ (PyVal.str "x")).2⟩

/-- Claim C5: for every middleware configuration, context, handler outcome and
handler residue, the attach and detach calls performed during `on_call_tool`
are balanced — two attaches (the extracted-context attach and the span-scope
activation inside the tracer) matched by two detaches (the span-scope exit and
the unconditional `finally` detach) — and after the invocation the ambient
stack, hence the current context, equals exactly what it was before, whether
`call_next` returned normally or raised. -/
theorem c5_attach_detach_symmetry {α : Type} (mw : FastMCPTracingMiddleware)
    (ctx : MiddlewareContext) (h : Handler α) (st : OtelState) (hs : st.stack ≠ []) :
    (mw.on_call_tool ctx h st).2.stack = st.stack ∧
    get_current (mw.on_call_tool ctx h st).2.stack = get_current st.stack ∧
    (mw.on_call_tool ctx h st).2.attaches = st.attaches + 2 ∧
    (mw.on_call_tool ctx h st).2.detaches = st.detaches + 2 := by
  rcases h with ⟨out, r⟩
  have hempty : st.stack.isEmpty = false := by
    cases hcs : st.stack
    · exact absurd hcs hs
    · rfl
  rw [FastMCPTracingMiddleware.on_call_tool_spec]
  refine ⟨?_, ?_, ?_, ?_⟩ <;> simp [finalStack, hempty]

/-- Claim C5 witness: the symmetry theorem applied at the concrete scenario
context over the initial runtime state. -/
theorem c5_witness :
    (initialOtelState.stack ≠ []) ∧
    ((({} : FastMCPTracingMiddleware)).on_call_tool c1Ctx
        (⟨Except.ok (0 : Nat), []⟩ : Handler Nat) initialOtelState).2.stack
      = initialOtelState.stack := by
  refine ⟨by simp [initialOtelState], ?_⟩
  exact (c5_attach_detach_symmetry {} c1Ctx ⟨Except.ok (0 : Nat), []⟩ initialOtelState
    (by simp [initialOtelState])).1

/-- Claim C6: with the default option flags, a normally returning handler
yields the result unchanged and a finished span carrying
`fastmcp.tool.success = true`; a raising handler yields the original exception
re-raised unchanged and a finished span carrying
`fastmcp.tool.success = false`, an error status whose description is the
exception message, and the recorded exception event. -/
theorem c6_default_outcome_recording {α : Type} (ctx : MiddlewareContext) (st : OtelState)
    (v : α) (e : Exc) (rOk rErr : List Context) :
    ((({} : FastMCPTracingMiddleware).on_call_tool ctx ⟨Except.ok v, rOk⟩ st).1 = Except.ok v ∧
      ∃ sp : Span,
        (({} : FastMCPTracingMiddleware).on_call_tool ctx ⟨Except.ok v, rOk⟩ st).2.finished
          = st.finished ++ [sp] ∧
        assocLookup sp.attributes "fastmcp.tool.success" = some (AttrVal.bool true)) ∧
    ((({} : FastMCPTracingMiddleware).on_call_tool ctx
        (⟨Except.error e, rErr⟩ : Handler α) st).1 = Except.error e ∧
      ∃ sp : Span,
        (({} : FastMCPTracingMiddleware).on_call_tool ctx
            (⟨Except.error e, rErr⟩ : Handler α) st).2.finished
          = st.finished ++ [sp] ∧
        assocLookup sp.attributes "fastmcp.tool.success" = some (AttrVal.bool false) ∧
        sp.status = { code := StatusCode.error, description := e.msg } ∧
        sp.events = [SpanEvent.exception e]) := by
  constructor
  · refine ⟨by rw [FastMCPTracingMiddleware.on_call_tool_spec],
      FastMCPTracingMiddleware.okSpan {} ctx st,
      by rw [FastMCPTracingMiddleware.on_call_tool_spec], ?_⟩
    simp [FastMCPTracingMiddleware.okSpan,
      FastMCPTracingMiddleware.setAttribute_flag_false ({} : FastMCPTracingMiddleware) rfl,
      assocLookup_assocInsert]
  · refine ⟨by rw [FastMCPTracingMiddleware.on_call_tool_spec],
      FastMCPTracingMiddleware.errSpan {} ctx st e,
      by rw [FastMCPTracingMiddleware.on_call_tool_spec], ?_, ?_, ?_⟩
    · simp [FastMCPTracingMiddleware.errSpan,
        FastMCPTracingMiddleware.setAttribute_flag_false ({} : FastMCPTracingMiddleware) rfl,
        assocLookup_assocInsert]
    · simp [FastMCPTracingMiddleware.errSpan, FastMCPTracingMiddleware.setAttribute_status]
    · simp [FastMCPTracingMiddleware.errSpan, FastMCPTracingMiddleware.setAttribute_events,
        FastMCPTracingMiddleware.baseSpan_events]

/-- Claim C7: `get` accumulates coercions from every candidate view without
stopping at the first match, root view first — shown on a carrier holding
`traceparent` both at root and inside the nested `otel` namespace — and
coerces null to no strings, a sequence to one stringified entry per non-null
element, a scalar to a single stringified value; the lookup key is
lower-cased. -/
theorem c7_get_accumulates (v₁ v₂ : PyVal) (xs : List PyVal) (s : String) (c : PyVal) :
    MetaCarrierGetter.get
        (PyVal.obj [("traceparent", v₁), ("otel", PyVal.obj [("traceparent", v₂)])])
        "traceparent"
      = MetaCarrierGetter.coerce_to_strings v₁ ++ MetaCarrierGetter.coerce_to_strings v₂ ∧
    MetaCarrierGetter.get (PyVal.obj [("traceparent", PyVal.none)]) "traceparent" = [] ∧
    MetaCarrierGetter.get (PyVal.obj [("traceparent", PyVal.list xs)]) "traceparent"
      = (xs.filter fun x => !(isPyNone x)).map pyStr ∧
    MetaCarrierGetter.get (PyVal.obj [("traceparent", PyVal.str s)]) "traceparent" = [s] ∧
    MetaCarrierGetter.get c "TRACEPARENT" = MetaCarrierGetter.get c "traceparent" :=
  ⟨rfl, rfl, rfl, rfl, rfl⟩

/-- Claim C8: for every middleware context whose method is not `"tools/call"`,
`__call__` forwards directly to `call_next` and returns its outcome, with no
span created (finished spans and the span counter unchanged) and no attach or
detach performed by the middleware. -/
theorem c8_pass_through {α : Type} (mw : FastMCPTracingMiddleware) (ctx : MiddlewareContext)
    (h : Handler α) (st : OtelState) (hm : ctx.method ≠ some "tools/call") :
    mw.call ctx h st = (h.outcome, { st with stack := st.stack ++ h.residue }) ∧
    (mw.call ctx h st).2.finished = st.finished ∧
    (mw.call ctx h st).2.attaches = st.attaches ∧
    (mw.call ctx h st).2.detaches = st.detaches ∧
    (mw.call ctx h st).2.counter = st.counter := by
  refine ⟨?_, ?_, ?_, ?_, ?_⟩ <;> simp [FastMCPTracingMiddleware.call, hm]

/-- Claim C8 witness: the pass-through theorem applied at method
`"tools/list"` with a balanced handler over the initial state. -/
theorem c8_witness :
    (some "tools/list" : Option String) ≠ some "tools/call" ∧
    ({} : FastMCPTracingMiddleware).call
        { message := { name := "" }, method := some "tools/list", source := "client" }
        (⟨Except.ok (0 : Nat), []⟩ : Handler Nat) initialOtelState
      = (Except.ok 0, initialOtelState) := by
  have h := c8_pass_through ({} : FastMCPTracingMiddleware)
    { message := { name := "" }, method := some "tools/list", source := "client" }
    (⟨Except.ok (0 : Nat), []⟩ : Handler Nat) initialOtelState (by decide)
  exact ⟨by decide, by simpa [initialOtelState] using h.1⟩

/-- Claim C9: `instrument_fastmcp` either finds a callable `add_middleware`
hook, invokes it with the (given or default-constructed) middleware and
returns that middleware, or raises a descriptive `TypeError` leaving the app
unregistered; exactly one of the two outcomes occurs for every app. -/
theorem c9_instrument_registration (app : App) (m : Option FastMCPTracingMiddleware) :
    (app.add_middleware = AddMiddlewareAttr.callableHook →
      instrument_fastmcp app m =
        (Except.ok (m.getD {}), { app with registered := app.registered ++ [m.getD {}] })) ∧
    (app.add_middleware ≠ AddMiddlewareAttr.callableHook →
      instrument_fastmcp app m = (Except.error instrumentErrorMessage, app)) := by
  constructor
  · intro h
    simp [instrument_fastmcp, h]
  · intro h
    cases ha : app.add_middleware with
    | callableHook => exact absurd ha h
    | missing => simp [instrument_fastmcp, ha]
    | nonCallable => simp [instrument_fastmcp, ha]

/-- Claim C9 witness: the registration theorem applied to an app with a
callable hook and to an app with no hook. -/
theorem c9_witness :
    instrument_fastmcp { add_middleware := AddMiddlewareAttr.callableHook } Option.none
      = (Except.ok {}, (⟨AddMiddlewareAttr.callableHook, [{}]⟩ : App)) ∧
    instrument_fastmcp { add_middleware := AddMiddlewareAttr.missing } Option.none
      = (Except.error instrumentErrorMessage, (⟨AddMiddlewareAttr.missing, []⟩ : App)) := by
  constructor
  · have h := (c9_instrument_registration
      { add_middleware := AddMiddlewareAttr.callableHook } Option.none).1 rfl
    simpa using h
  · have h := (c9_instrument_registration
      { add_middleware := AddMiddlewareAttr.missing } Option.none).2 (by decide)
    simpa using h

/-- Claim C10: when `langfuse_compatible` is false, no attribute whose key
starts with `"langfuse."` is ever set on the invocation span; when the flag is
true and a non-empty mirror name is supplied, `_set_attribute` sets — besides
the standard attribute and its `"langfuse.observation.metadata."`-prefixed
mirror — the constant attribute `"langfuse.observation.type" = "tool"`. -/
theorem c10_langfuse_gating {α : Type} (mw : FastMCPTracingMiddleware)
    (ctx : MiddlewareContext) (out : Except Exc α) (r : List Context) (st : OtelState) :
    (mw.langfuseCompatible = false →
      ∃ sp : Span,
        (mw.on_call_tool ctx (⟨out, r⟩ : Handler α) st).2.finished = st.finished ++ [sp] ∧
        (sp.attributes.all fun kv => !(langfusePrefixed kv.1)) = true) ∧
    (∀ (sp : Span) (n : String) (va : AttrVal) (ln : String),
      mw.langfuseCompatible = true → ln ≠ "" →
      assocLookup (mw.setAttribute sp n va (some ln)).attributes "langfuse.observation.type"
        = some (AttrVal.str "tool") ∧
      assocLookup (mw.setAttribute sp n va (some ln)).attributes
        ("langfuse.observation.metadata." ++ ln) = some va) := by
  constructor
  · intro hl
    have hbase := FastMCPTracingMiddleware.baseSpan_keys_all mw ctx st hl
      (fun k => !(langfusePrefixed k)) rfl rfl rfl rfl
    cases out with
    | ok v =>
        refine ⟨FastMCPTracingMiddleware.okSpan mw ctx st,
          by rw [FastMCPTracingMiddleware.on_call_tool_spec], ?_⟩
        unfold FastMCPTracingMiddleware.okSpan
        split
        · exact FastMCPTracingMiddleware.setAttribute_keys_all mw hl _ "fastmcp.tool.success"
            _ _ (fun k => !(langfusePrefixed k)) hbase rfl
        · exact hbase
    | error e =>
        refine ⟨FastMCPTracingMiddleware.errSpan mw ctx st e,
          by rw [FastMCPTracingMiddleware.on_call_tool_spec], ?_⟩
        unfold FastMCPTracingMiddleware.errSpan
        split
        · exact FastMCPTracingMiddleware.setAttribute_keys_all mw hl _ "fastmcp.tool.success"
            _ _ (fun k => !(langfusePrefixed k)) hbase rfl
        · exact hbase
  · intro sp n va ln h1 h2
    have hdata : ln.data ≠ [] := by
      intro hd
      apply h2
      cases ln
      simp only at hd
      simp [hd]
    have hlnd : ln.data.isEmpty = false := by
      cases hld : ln.data with
      | nil => exact absurd hld hdata
      | cons c cs => rfl
    simp only [FastMCPTracingMiddleware.setAttribute, h1, hlnd, Bool.not_false,
      Bool.and_self, if_true]
    constructor
    · rw [assocLookup_assocInsert, if_neg (metadata_key_ne_type ln), assocLookup_assocInsert,
        if_pos rfl]
    · rw [assocLookup_assocInsert, if_pos rfl]

/-- Claim C10 witness: the gating theorem applied with the flag off at the
concrete scenario, and with the flag on at a concrete span and mirror name. -/
theorem c10_witness :
    (∃ sp : Span,
      (({} : FastMCPTracingMiddleware).on_call_tool c1Ctx
          (⟨Except.ok (0 : Nat), []⟩ : Handler Nat) initialOtelState).2.finished
        = initialOtelState.finished ++ [sp] ∧
      (sp.attributes.all fun kv => !(langfusePrefixed kv.1)) = true) ∧
    assocLookup
        (({ langfuseCompatible := true } : FastMCPTracingMiddleware).setAttribute
          { name := "s", ctx := { trace_id := 1, span_id := 1, is_remote := false, trace_flags := 1 },
            parent := Option.none, kind := SpanKind.server }
          "fastmcp.tool.name" (AttrVal.str "t") (some "tool_name")).attributes
        "langfuse.observation.type" = some (AttrVal.str "tool") := by
  constructor
  · exact (c10_langfuse_gating ({} : FastMCPTracingMiddleware) c1Ctx (Except.ok (0 : Nat))
      [] initialOtelState).1 rfl
  · exact ((c10_langfuse_gating ({ langfuseCompatible := true } : FastMCPTracingMiddleware)
      c1Ctx (Except.ok (0 : Nat)) [] initialOtelState).2
      { name := "s", ctx := { trace_id := 1, span_id := 1, is_remote := false, trace_flags := 1 },
        parent := Option.none, kind := SpanKind.server }
      "fastmcp.tool.name" (AttrVal.str "t") "tool_name" rfl (by decide)).1
